import Mathlib

/-!
Shallow embedding of `src/mysql_server.py` (mysql-mcp-server, FastMCP
implementation).  The module-level globals `db_name` and `_global_context`
become an explicit `ServerState`; every interaction with the MySQL driver
(aiomysql) goes through an abstract `Oracle` whose operations may fail with a
Python-style exception (`Except PyErr`).  Each handler additionally returns
the list of database-access events it performed, in order, so that claims
about "no database access", pool lifecycle and transaction discipline can be
stated.  Python control flow is translated directly: `try/except` becomes
matching on `Except`, truthiness tests on optional strings / lists become
explicit `pyTruthy` checks, and string manipulation helpers mirror
`str.strip`, `str.upper`, `str.startswith`, `in`, and `str.rstrip(';')`.
-/

/-- A Python exception: class name and message (`type(e).__name__`, `str(e)`). -/
structure PyErr where
  ename : String
  emsg : String
deriving Repr, DecidableEq

/-- A SQL value as seen through the driver: `none` is SQL NULL / Python `None`. -/
abbrev PyVal := Option String

/-- A row from a DictCursor: association list of column name to value. -/
abbrev DRow := List (String × PyVal)

/-- Python truthiness of an optional string (`None` and `""` are falsy). -/
def pyTruthy : Option String → Bool
  | none => false
  | some s => !(s == "")

/-- Python `a or d` for an optional string `a` and string default `d`. -/
def pyOr (a : Option String) (d : String) : String :=
  match a with
  | none => d
  | some s => if s == "" then d else s

/-- Python `s != t` where `t : Optional[str]` (a string never equals `None`). -/
def pyNeqOpt (s : String) : Option String → Bool
  | none => true
  | some t => !(s == t)

/-- Python `str.strip()` (trim surrounding whitespace). -/
def pyStrip (s : String) : String :=
  ⟨((s.data.dropWhile Char.isWhitespace).reverse.dropWhile Char.isWhitespace).reverse⟩

/-- Python `str.upper()` (character-wise uppercase). -/
def pyToUpper (s : String) : String := ⟨s.data.map Char.toUpper⟩

/-- List-level starts-with used to model Python `str.startswith`. -/
def startsList : List Char → List Char → Bool
  | _, [] => true
  | [], _ :: _ => false
  | a :: as, b :: bs => a == b && startsList as bs

/-- Python `s.startswith(p)`. -/
def pyStartsWith (s p : String) : Bool := startsList s.data p.data

/-- List-level substring occurrence used to model Python `sub in s`. -/
def hasSubList : List Char → List Char → Bool
  | _, [] => true
  | [], _ :: _ => false
  | a :: as, b :: bs => startsList (a :: as) (b :: bs) || hasSubList as (b :: bs)

/-- Python `sub in s` (substring containment). -/
def pyContainsSub (s sub : String) : Bool := hasSubList s.data sub.data

/-- Python `s.rstrip(';')`: drop all trailing semicolons. -/
def pyRstripSemi (s : String) : String :=
  ⟨(s.data.reverse.dropWhile (fun c => c == ';')).reverse⟩

/-- Python `str(v)` of a value that may be `None` (f-string rendering). -/
def pyStr : PyVal → String
  | none => "None"
  | some s => s

/-- Python `row[0]` on a tuple/list: raises `IndexError` when empty. -/
def pyIndex0 (row : List PyVal) : Except PyErr PyVal :=
  match row with
  | [] => .error ⟨"IndexError", "tuple index out of range"⟩
  | v :: _ => .ok v

/-- Python `row[key]` on a DictCursor row: raises `KeyError` when absent. -/
def pyGet (row : DRow) (key : String) : Except PyErr PyVal :=
  match row.find? (fun kv => kv.1 == key) with
  | some kv => .ok kv.2
  | none => .error ⟨"KeyError", key⟩

/-- Observable database-access events, in program order. -/
inductive Event where
  | poolCreated (db : Option String) (maxsize : Nat) (pid : Nat)
  | poolClosed (pid : Nat)
  | sql (pid : Nat) (text : String)
  | txBegin (pid : Nat)
  | txCommit (pid : Nat)
  | txRollback (pid : Nat)
deriving Repr, DecidableEq

/-- An aiomysql pool: identifier, bound database (`db=` argument), max size. -/
structure Pool where
  pid : Nat
  db : Option String
  maxsize : Nat
deriving Repr, DecidableEq

/-- `MysqlContext` dataclass: wraps a pool. -/
structure MysqlContext where
  pool : Pool
deriving Repr, DecidableEq

/-- The module-level mutable globals: `db_name` and `_global_context`. -/
structure ServerState where
  dbName : Option String
  globalCtx : Option MysqlContext
deriving Repr, DecidableEq

/-- Abstract MySQL driver.  Each operation may raise.  `createPool` returns a
fresh pool identifier; the remaining operations act on a pool's connections. -/
structure Oracle where
  createPool : Option String → Nat → Except PyErr Nat
  acquire : Nat → Except PyErr Unit
  runPlain : Nat → String → Except PyErr (List (List PyVal))
  runDict : Nat → String → Except PyErr (List DRow × Option (List String))
  runDictP : Nat → String → List PyVal → Except PyErr (List DRow × Option (List String))
  runWrite : Nat → String → Option (List PyVal) → Except PyErr (Int × Nat)
  beginTx : Nat → Except PyErr Unit
  commitTx : Nat → Except PyErr Unit
  rollbackTx : Nat → Except PyErr Unit

/-- `get_context(database_name)` (mysql_server.py lines 73–135), as a
higher-order function over the `with`-body.  The body may fail with an error
of type `ε` (so a caller can thread extra data through its `except` clause);
`onErr` injects `get_context`'s own pool-creation failures into `ε`.
If a specific, truthy database different from `db_name` is requested, an
ephemeral pool (maxsize 5) is created, used, and closed on every exit path,
leaving the global state untouched.  Otherwise the global context is used,
lazily created with maxsize 10 bound to `db_name` (or unbound when `db_name`
is `None`). -/
def get_context {ε α : Type} (o : Oracle) (st : ServerState)
    (database_name : Option String) (onErr : PyErr → ε)
    (body : MysqlContext → Except ε α × List Event) :
    Except ε α × ServerState × List Event :=
  match database_name with
  | some s =>
    if !(s == "") && pyNeqOpt s st.dbName then
      -- temporary (ephemeral) context for a specific database
      match o.createPool (some s) 5 with
      | .error e => (.error (onErr e), st, [])
      | .ok pid =>
        let ctx : MysqlContext := ⟨⟨pid, some s, 5⟩⟩
        let r := body ctx
        (r.1, st, Event.poolCreated (some s) 5 pid :: r.2 ++ [Event.poolClosed pid])
    else
      match st.globalCtx with
      | some c =>
        let r := body c
        (r.1, st, r.2)
      | none =>
        match o.createPool st.dbName 10 with
        | .error e => (.error (onErr e), st, [])
        | .ok pid =>
          let ctx : MysqlContext := ⟨⟨pid, st.dbName, 10⟩⟩
          let r := body ctx
          (r.1, { st with globalCtx := some ctx }, Event.poolCreated st.dbName 10 pid :: r.2)
  | none =>
    match st.globalCtx with
    | some c =>
      let r := body c
      (r.1, st, r.2)
    | none =>
      match o.createPool st.dbName 10 with
      | .error e => (.error (onErr e), st, [])
      | .ok pid =>
        let ctx : MysqlContext := ⟨⟨pid, st.dbName, 10⟩⟩
        let r := body ctx
        (r.1, { st with globalCtx := some ctx }, Event.poolCreated st.dbName 10 pid :: r.2)

/-- The result dictionary of `query_data`.  Mirrors the Python dicts: the
success payload has no message or error key (modelled as `error = none`),
the failure payload has `error` set and default-empty row data. -/
structure QueryResult where
  success : Bool
  error : Option String := none
  rows : List DRow := []
  row_count : Nat := 0
  columns : List String := []
  database : Option String := none
  query : String
deriving Repr, DecidableEq

/-- The `USE `db`` statement issued when an explicit `database` argument is
truthy (mysql_server.py lines 233–235, 322–324, 447–453). -/
def useDbStep (o : Oracle) (pid : Nat) (d : String) :
    Except PyErr Unit × List Event :=
  match o.runPlain pid ("USE `" ++ d ++ "`") with
  | .error e => (.error e, [Event.sql pid ("USE `" ++ d ++ "`")])
  | .ok _ => (.ok (), [Event.sql pid ("USE `" ++ d ++ "`")])

/-- The LIMIT-injection rewrite of `query_data` (lines 240–246): when
`limit > 0`, the uppercased text contains no `LIMIT` and does not start with
`SHOW`, `DESCRIBE` or `EXPLAIN`, append ` LIMIT <limit>` after dropping
trailing semicolons; otherwise leave the text unchanged. -/
def rewriteLimit (query : String) (limit : Int) : String :=
  let query_upper := pyStrip (pyToUpper query)
  if limit > 0 && !(pyContainsSub query_upper "LIMIT")
      && !(pyStartsWith query_upper "SHOW")
      && !(pyStartsWith query_upper "DESCRIBE")
      && !(pyStartsWith query_upper "EXPLAIN") then
    pyRstripSemi query ++ " LIMIT " ++ toString limit
  else query

/-- The `with get_context(...)` body of `query_data` (lines 230–274): acquire
a connection, optionally `USE` the explicit database, rewrite and run the
query, truncate SHOW results, and resolve the current database name.  A raise
carries the current value of the `query` variable to the `except` clause. -/
def query_data_body (o : Oracle) (query : String) (limit : Int)
    (database : Option String) (ctx : MysqlContext) :
    Except (PyErr × String) QueryResult × List Event :=
  match o.acquire ctx.pool.pid with
  | .error e => (Except.error (e, query), [])
  | .ok _ =>
    let useRes : Except PyErr Unit × List Event :=
      if pyTruthy database then useDbStep o ctx.pool.pid (pyOr database "")
      else (.ok (), [])
    match useRes with
    | (.error e, evs) => (Except.error (e, query), evs)
    | (.ok _, evs0) =>
      let query_upper2 := pyStrip (pyToUpper query)
      let query1 := rewriteLimit query limit
      match o.runDict ctx.pool.pid query1 with
      | .error e => (Except.error (e, query1), evs0 ++ [Event.sql ctx.pool.pid query1])
      | .ok rd =>
        let rows1 := if pyStartsWith query_upper2 "SHOW" && limit > 0
                     then rd.1.take limit.toNat else rd.1
        let columns := rd.2.getD []
        match o.runPlain ctx.pool.pid "SELECT DATABASE()" with
        | .error e =>
          (Except.error (e, query1),
           evs0 ++ [Event.sql ctx.pool.pid query1, Event.sql ctx.pool.pid "SELECT DATABASE()"])
        | .ok dbrows =>
          let current_database : Option String :=
            match dbrows.head? with
            | some row =>
              if row.length > 0 then row.headD none
              else some (pyOr database "unknown")
            | none => some (pyOr database "unknown")
          (Except.ok { success := true, rows := rows1, row_count := rows1.length,
                       columns := columns, database := current_database,
                       query := query1 },
           evs0 ++ [Event.sql ctx.pool.pid query1, Event.sql ctx.pool.pid "SELECT DATABASE()"])

/-- `query_data(query, limit=100, database=None)` (lines 202–284).  Rejects
non-SELECT text before any database work; otherwise resolves a context, runs
`query_data_body`, and catches every raised error into a failure payload
carrying the current value of the (possibly rewritten) `query` variable. -/
def query_data (o : Oracle) (st : ServerState) (query : String)
    (limit : Int := 100) (database : Option String := none) :
    QueryResult × ServerState × List Event :=
  let query_upper := pyToUpper (pyStrip query)
  if !(pyStartsWith query_upper "SELECT") then
    ({ success := false,
       error := some "Only SELECT queries are allowed for safety",
       query := query,
       database := some (pyOr database "current") }, st, [])
  else
    let step := get_context o st database (fun e => (e, query))
      (query_data_body o query limit database)
    match step.1 with
    | .ok res => (res, step.2.1, step.2.2)
    | .error ep =>
      ({ success := false,
         error := some ("Query failed: " ++ ep.1.ename ++ ": " ++ ep.1.emsg),
         query := ep.2,
         database := some (pyOr database "current") }, step.2.1, step.2.2)

/-- The result dictionary of `execute_write`. -/
structure WriteResult where
  success : Bool
  error : Option String := none
  message : Option String := none
  query : String
  database : Option String
  affected_rows : Int
  last_insert_id : Option Nat
deriving Repr, DecidableEq

/-- The allowed leading keywords for `execute_write` (ALLOWED_PREFIXES). -/
def writeKeywords : List String := ["INSERT", "UPDATE", "DELETE", "REPLACE"]

/-- The rollback step of `execute_write`'s inner `except` clause: attempt
`conn.rollback()`; if the rollback itself raises, that new error replaces the
original one on the way to the outer handler. -/
def rollbackStep (o : Oracle) (pid : Nat) (e : PyErr) : PyErr × List Event :=
  match o.rollbackTx pid with
  | .error e2 => (e2, [Event.txRollback pid])
  | .ok _ => (e, [Event.txRollback pid])

/-- The `with get_context(...)` body of `execute_write` (lines 320–358):
acquire, optional `USE`, then begin → execute → commit, with rollback and
re-raise on any error raised between `begin` and the success return
(including a failing commit or a failing post-commit `SELECT DATABASE()`). -/
def execute_write_body (o : Oracle) (query_stripped : String)
    (params : Option (List PyVal)) (database : Option String)
    (ctx : MysqlContext) : Except PyErr WriteResult × List Event :=
  match o.acquire ctx.pool.pid with
  | .error e => (Except.error e, [])
  | .ok _ =>
    let useRes : Except PyErr Unit × List Event :=
      if pyTruthy database then useDbStep o ctx.pool.pid (pyOr database "")
      else (.ok (), [])
    match useRes with
    | (.error e, evs) => (Except.error e, evs)
    | (.ok _, evs0) =>
      match o.beginTx ctx.pool.pid with
      | .error e => (Except.error e, evs0)
      | .ok _ =>
        let evs1 := evs0 ++ [Event.txBegin ctx.pool.pid]
        -- `if params:` — an absent or empty list means a bare execute
        let effParams : Option (List PyVal) :=
          match params with
          | none => none
          | some ps => if ps.isEmpty then none else some ps
        match o.runWrite ctx.pool.pid query_stripped effParams with
        | .error e =>
          let rb := rollbackStep o ctx.pool.pid e
          (Except.error rb.1, evs1 ++ [Event.sql ctx.pool.pid query_stripped] ++ rb.2)
        | .ok rc =>
          let evs2 := evs1 ++ [Event.sql ctx.pool.pid query_stripped]
          match o.commitTx ctx.pool.pid with
          | .error e =>
            let rb := rollbackStep o ctx.pool.pid e
            (Except.error rb.1, evs2 ++ rb.2)
          | .ok _ =>
            let evs3 := evs2 ++ [Event.txCommit ctx.pool.pid]
            match o.runPlain ctx.pool.pid "SELECT DATABASE()" with
            | .error e =>
              let rb := rollbackStep o ctx.pool.pid e
              (Except.error rb.1, evs3 ++ [Event.sql ctx.pool.pid "SELECT DATABASE()"] ++ rb.2)
            | .ok dbrows =>
              let current_database : Option String :=
                match dbrows.head? with
                | some row =>
                  if row.isEmpty then some (pyOr database "unknown")
                  else row.headD none
                | none => some (pyOr database "unknown")
              (Except.ok { success := true,
                           message := some "Query executed successfully",
                           query := query_stripped,
                           database := current_database,
                           affected_rows := rc.1,
                           last_insert_id := if rc.2 == 0 then none else some rc.2 },
               evs3 ++ [Event.sql ctx.pool.pid "SELECT DATABASE()"])

/-- `execute_write(query, params=None, database=None)` (lines 286–370).
The prefix check happens before the `try` block; the write itself runs as
begin → execute → commit, with a rollback and re-raise on any error raised
between `begin` and the success return (including a failing commit or a
failing post-commit `SELECT DATABASE()`).  The failure payload carries the
original `query`; the success payload carries the stripped text. -/
def execute_write (o : Oracle) (st : ServerState) (query : String)
    (params : Option (List PyVal) := none) (database : Option String := none) :
    WriteResult × ServerState × List Event :=
  let query_stripped := pyStrip query
  let query_upper := pyToUpper query_stripped
  if !(writeKeywords.any (fun p => pyStartsWith query_upper p)) then
    ({ success := false,
       error := some "Only INSERT, UPDATE, DELETE, REPLACE queries are allowed. Use query_data for SELECT.",
       query := query,
       database := some (pyOr database "current"),
       affected_rows := 0,
       last_insert_id := none }, st, [])
  else
    let step := get_context o st database id
      (execute_write_body o query_stripped params database)
    match step.1 with
    | .ok res => (res, step.2.1, step.2.2)
    | .error e =>
      ({ success := false,
         error := some ("Write query failed: " ++ e.ename ++ ": " ++ e.emsg),
         query := query,
         database := some (pyOr database "current"),
         affected_rows := 0,
         last_insert_id := none }, step.2.1, step.2.2)

/-- The result dictionary of `change_database`. -/
structure ChangeResult where
  status : String
  message : String
  current_database : Option String
deriving Repr, DecidableEq

/-- `change_database(database_name)` (lines 141–200).  Closes the existing
global pool (if any), updates the global `db_name`, creates a new pool bound
to the requested database, installs it as the global context, then verifies
with `SELECT DATABASE()`.  Any raise is caught into an error payload — but
the global-state mutations performed before the raise remain in effect. -/
def change_database (o : Oracle) (st : ServerState) (database_name : String) :
    ChangeResult × ServerState × List Event :=
  -- close existing pool if exists
  let closed : ServerState × List Event :=
    match st.globalCtx with
    | some c => ({ st with globalCtx := none }, [Event.poolClosed c.pool.pid])
    | none => (st, [])
  -- update global database name
  let st1 : ServerState := { closed.1 with dbName := some database_name }
  let errPayload : PyErr → ChangeResult := fun e =>
    { status := "error",
      message := "Failed to change database to " ++ database_name ++ ": " ++ e.emsg,
      current_database := none }
  match o.createPool (some database_name) 10 with
  | .error e => (errPayload e, st1, closed.2)
  | .ok pid =>
    let ctx : MysqlContext := ⟨⟨pid, some database_name, 10⟩⟩
    let st2 : ServerState := { st1 with globalCtx := some ctx }
    let evs1 := closed.2 ++ [Event.poolCreated (some database_name) 10 pid]
    match o.acquire pid with
    | .error e => (errPayload e, st2, evs1)
    | .ok _ =>
      match o.runPlain pid "SELECT DATABASE()" with
      | .error e => (errPayload e, st2, evs1 ++ [Event.sql pid "SELECT DATABASE()"])
      | .ok dbrows =>
        let current_database : Option String :=
          match dbrows.head? with
          | some row => if row.isEmpty then some database_name else row.headD none
          | none => some database_name
        ({ status := "success",
           message := "Successfully changed to database: " ++ database_name,
           current_database := current_database },
         st2, evs1 ++ [Event.sql pid "SELECT DATABASE()"])

/-- The result dictionary of `list_databases`. -/
structure DbListResult where
  status : String
  message : String
  databases : List PyVal
  count : Nat
deriving Repr, DecidableEq

/-- The fixed system-schema names excluded by `list_databases`. -/
def system_dbs : List String :=
  ["information_schema", "performance_schema", "mysql", "sys"]

/-- `list_databases()` (lines 373–414): `SHOW DATABASES` on the global
context, dropping system schemas (a `None` name is never a system schema). -/
def list_databases_body (o : Oracle) (ctx : MysqlContext) :
    Except PyErr DbListResult × List Event :=
  match o.acquire ctx.pool.pid with
  | .error e => (Except.error e, [])
  | .ok _ =>
    match o.runPlain ctx.pool.pid "SHOW DATABASES" with
    | .error e => (Except.error e, [Event.sql ctx.pool.pid "SHOW DATABASES"])
    | .ok rows =>
      match rows.mapM pyIndex0 with
      | .error e => (Except.error e, [Event.sql ctx.pool.pid "SHOW DATABASES"])
      | .ok names =>
        let databases := names.filter (fun v =>
          match v with
          | none => true
          | some s => !(system_dbs.contains s))
        (Except.ok { status := "success",
                     message := "Databases retrieved successfully",
                     databases := databases,
                     count := databases.length },
         [Event.sql ctx.pool.pid "SHOW DATABASES"])

/-- `list_databases()` (lines 373–414), the handler itself. -/
def list_databases (o : Oracle) (st : ServerState) :
    DbListResult × ServerState × List Event :=
  let step := get_context o st none id (list_databases_body o)
  match step.1 with
  | .ok res => (res, step.2.1, step.2.2)
  | .error e =>
    ({ status := "error",
       message := "Failed to list databases: " ++ e.emsg,
       databases := [],
       count := 0 }, step.2.1, step.2.2)

/-- The result dictionary of `list_tables`. -/
structure TablesResult where
  status : String
  message : String
  database : Option String
  tables : List PyVal
  count : Nat
deriving Repr, DecidableEq

/-- The `with get_context(...)` body of `list_tables` (lines 444–468):
acquire, `USE` the truthy explicit database or else the truthy global
default, then `SHOW TABLES` and extract the first column of each row. -/
def list_tables_body (o : Oracle) (st : ServerState) (database : Option String)
    (target_db : String) (ctx : MysqlContext) :
    Except PyErr TablesResult × List Event :=
  match o.acquire ctx.pool.pid with
  | .error e => (Except.error e, [])
  | .ok _ =>
    let useRes : Except PyErr Unit × List Event :=
      if pyTruthy database then useDbStep o ctx.pool.pid (pyOr database "")
      else if pyTruthy st.dbName then useDbStep o ctx.pool.pid (pyOr st.dbName "")
      else (.ok (), [])
    match useRes with
    | (.error e, evs) => (Except.error e, evs)
    | (.ok _, evs0) =>
      match o.runPlain ctx.pool.pid "SHOW TABLES" with
      | .error e => (Except.error e, evs0 ++ [Event.sql ctx.pool.pid "SHOW TABLES"])
      | .ok rows =>
        match rows.mapM pyIndex0 with
        | .error e => (Except.error e, evs0 ++ [Event.sql ctx.pool.pid "SHOW TABLES"])
        | .ok tables =>
          (Except.ok { status := "success",
                       message := "Tables retrieved successfully from " ++ target_db,
                       database := some target_db,
                       tables := tables,
                       count := tables.length },
           evs0 ++ [Event.sql ctx.pool.pid "SHOW TABLES"])

/-- `list_tables(database=None)` (lines 416–479).  Resolves a target database
from the truthy explicit argument or the truthy global default; with neither,
returns the MissingDatabase-style payload before any database work.  Otherwise
resolves a context, issues `USE` for the explicit argument or the default,
and runs `SHOW TABLES`. -/
def list_tables (o : Oracle) (st : ServerState) (database : Option String := none) :
    TablesResult × ServerState × List Event :=
  let targetOpt : Option String :=
    if pyTruthy database then some (pyOr database "")
    else if pyTruthy st.dbName then some (pyOr st.dbName "")
    else none
  match targetOpt with
  | none =>
    ({ status := "error",
       message := "No database specified and no default database configured. Use \x27database\x27 parameter or set DB_NAME in environment.",
       database := none,
       tables := [],
       count := 0 }, st, [])
  | some target_db =>
    let step := get_context o st database id
      (list_tables_body o st database target_db)
    match step.1 with
    | .ok res => (res, step.2.1, step.2.2)
    | .error e =>
      ({ status := "error",
         message := "Failed to list tables: " ++ e.emsg,
         database := some (pyOr database (pyOr st.dbName "unknown")),
         tables := [],
         count := 0 }, step.2.1, step.2.2)

/-- One entry of `get_schema`'s per-column list (Python keys field / type /
null / key / default / extra / comment, renamed around Lean keywords). -/
structure ColInfo where
  field : PyVal
  ctype : PyVal
  cnull : PyVal
  key : PyVal
  cdefault : PyVal
  extra : PyVal
  comment : PyVal
deriving Repr, DecidableEq

/-- The result dictionary of `get_schema`.  The success payload carries a
`table_comment`; the error payloads have no such key (`none`). -/
structure SchemaResult where
  status : String
  message : String
  table : String
  database : Option String
  table_comment : Option PyVal := none
  columns : List ColInfo
  count : Nat
deriving Repr, DecidableEq

/-- The information_schema query for columns issued by `get_schema`. -/
def schemaColumnsQuery : String :=
  "SELECT COLUMN_NAME, COLUMN_TYPE, IS_NULLABLE, COLUMN_KEY, COLUMN_DEFAULT, EXTRA, COLUMN_COMMENT FROM information_schema.columns WHERE table_schema=%s AND table_name=%s"

/-- The information_schema query for the table comment issued by `get_schema`. -/
def schemaCommentQuery : String :=
  "SELECT TABLE_COMMENT FROM information_schema.tables WHERE table_schema=%s AND table_name=%s"

/-- Builds one schema_info entry from a DictCursor row (dict lookups raise
`KeyError` when a column is missing). -/
def buildColInfo (row : DRow) : Except PyErr ColInfo := do
  let f ← pyGet row "COLUMN_NAME"
  let t ← pyGet row "COLUMN_TYPE"
  let n ← pyGet row "IS_NULLABLE"
  let k ← pyGet row "COLUMN_KEY"
  let d ← pyGet row "COLUMN_DEFAULT"
  let e ← pyGet row "EXTRA"
  let c ← pyGet row "COLUMN_COMMENT"
  pure { field := f, ctype := t, cnull := n, key := k, cdefault := d, extra := e, comment := c }

/-- The `with get_context(...)` body of `get_schema` (lines 511–560):
acquire, query information_schema for the columns (parameterised), return a
TableNotFound-style payload when empty, otherwise build the per-column info
and fetch the table comment. -/
def get_schema_body (o : Oracle) (table_name : String) (target_db : String)
    (ctx : MysqlContext) : Except PyErr SchemaResult × List Event :=
  match o.acquire ctx.pool.pid with
  | .error e => (Except.error e, [])
  | .ok _ =>
    match o.runDictP ctx.pool.pid schemaColumnsQuery [some target_db, some table_name] with
    | .error e => (Except.error e, [Event.sql ctx.pool.pid schemaColumnsQuery])
    | .ok rd =>
      let evs0 := [Event.sql ctx.pool.pid schemaColumnsQuery]
      if rd.1.isEmpty then
        (Except.ok { status := "error",
                     message := "Table \x27" ++ table_name ++ "\x27 not found in database \x27" ++ target_db ++ "\x27",
                     table := table_name,
                     database := some target_db,
                     columns := [],
                     count := 0 }, evs0)
      else
        match rd.1.mapM buildColInfo with
        | .error e => (Except.error e, evs0)
        | .ok schema_info =>
          match o.runDictP ctx.pool.pid schemaCommentQuery [some target_db, some table_name] with
          | .error e => (Except.error e, evs0 ++ [Event.sql ctx.pool.pid schemaCommentQuery])
          | .ok crd =>
            let evs1 := evs0 ++ [Event.sql ctx.pool.pid schemaCommentQuery]
            -- `table_row["TABLE_COMMENT"] if table_row else ""`
            let tcRes : Except PyErr PyVal :=
              match crd.1.head? with
              | some row => if row.isEmpty then .ok (some "") else pyGet row "TABLE_COMMENT"
              | none => .ok (some "")
            match tcRes with
            | .error e => (Except.error e, evs1)
            | .ok table_comment =>
              (Except.ok { status := "success",
                           message := "Schema for " ++ table_name ++ " retrieved successfully",
                           table := table_name,
                           database := some target_db,
                           table_comment := some table_comment,
                           columns := schema_info,
                           count := schema_info.length }, evs1)

/-- `get_schema(table_name, database=None)` (lines 481–572).  Same database
resolution as `list_tables`; queries information_schema for the columns
(parameterised), returns a TableNotFound-style payload when the column list
is empty, otherwise builds the per-column info and fetches the table comment. -/
def get_schema (o : Oracle) (st : ServerState) (table_name : String)
    (database : Option String := none) :
    SchemaResult × ServerState × List Event :=
  let targetOpt : Option String :=
    if pyTruthy database then some (pyOr database "")
    else if pyTruthy st.dbName then some (pyOr st.dbName "")
    else none
  match targetOpt with
  | none =>
    ({ status := "error",
       message := "No database specified and no default database configured. Use \x27database\x27 parameter or set DB_NAME in environment.",
       table := table_name,
       database := none,
       columns := [],
       count := 0 }, st, [])
  | some target_db =>
    let step := get_context o st database id
      (get_schema_body o table_name target_db)
    match step.1 with
    | .ok res => (res, step.2.1, step.2.2)
    | .error e =>
      ({ status := "error",
         message := "Failed to get schema for " ++ table_name ++ ": " ++ e.emsg,
         table := table_name,
         database := some (pyOr database (pyOr st.dbName "unknown")),
         columns := [],
         count := 0 }, step.2.1, step.2.2)

/-- `get_status()` resource (lines 575–586): probe `SELECT 1` on the global
context and render a one-line health string; every raise is caught. -/
def get_status_body (o : Oracle) (ctx : MysqlContext) :
    Except PyErr Unit × List Event :=
  match o.acquire ctx.pool.pid with
  | .error e => (Except.error e, [])
  | .ok _ =>
    match o.runPlain ctx.pool.pid "SELECT 1" with
    | .error e => (Except.error e, [Event.sql ctx.pool.pid "SELECT 1"])
    | .ok _ => (Except.ok (), [Event.sql ctx.pool.pid "SELECT 1"])

/-- `get_status()` resource (lines 575–586), the handler itself. -/
def get_status (o : Oracle) (st : ServerState) :
    String × ServerState × List Event :=
  let step := get_context o st none id (get_status_body o)
  match step.1 with
  | .ok _ => ("✅ MySQL server is healthy and ready", step.2.1, step.2.2)
  | .error e => ("❌ MySQL server error: " ++ e.emsg, step.2.1, step.2.2)

/-- `get_tables_resource()` resource (lines 588–602): delegate to
`list_tables()` with no explicit database and render the outcome as text. -/
def get_tables_resource (o : Oracle) (st : ServerState) :
    String × ServerState × List Event :=
  let step := list_tables o st none
  let res := step.1
  if res.status == "success" then
    if !res.tables.isEmpty then
      (String.intercalate "\n" (res.tables.map (fun t => "📊 " ++ pyStr t)),
       step.2.1, step.2.2)
    else ("📋 No tables found in database", step.2.1, step.2.2)
  else ("❌ Error: " ++ res.message, step.2.1, step.2.2)

/-- A driver in which every operation succeeds, with fixed small responses;
used to evaluate the handlers at concrete inputs. -/
def okOracle : Oracle where
  createPool := fun _ _ => .ok 7
  acquire := fun _ => .ok ()
  runPlain := fun _ _ => .ok [[some "testdb"]]
  runDict := fun _ _ =>
    .ok ([[("a", some "1")], [("a", some "2")], [("a", some "3")], [("a", some "4")]], some ["a"])
  runDictP := fun _ _ _ => .ok ([[("COLUMN_NAME", some "id")]], none)
  runWrite := fun _ _ _ => .ok (2, 0)
  beginTx := fun _ => .ok ()
  commitTx := fun _ => .ok ()
  rollbackTx := fun _ => .ok ()

/-- A driver whose DictCursor execute raises (e.g. the queried table does not
exist); everything else succeeds. -/
def execFailOracle : Oracle :=
  { okOracle with runDict := fun _ _ => .error ⟨"ProgrammingError", "no such table"⟩ }

/-- A driver whose plain-cursor statements raise, so that the verification
query of `change_database` fails after the new pool has been installed. -/
def verifyFailOracle : Oracle :=
  { okOracle with runPlain := fun _ _ => .error ⟨"OperationalError", "boom"⟩ }

/-- A driver whose pool creation raises (server unreachable). -/
def createFailOracle : Oracle :=
  { okOracle with createPool := fun _ _ => .error ⟨"OperationalError", "refused"⟩ }

/-- A driver whose write execution raises (e.g. a constraint violation). -/
def writeFailOracle : Oracle :=
  { okOracle with runWrite := fun _ _ _ => .error ⟨"IntegrityError", "duplicate key"⟩ }

/-- A baseline state: default database `testdb` with a live global pool. -/
def st0 : ServerState := ⟨some "testdb", some ⟨⟨0, some "testdb", 10⟩⟩⟩

/-- The state of a fresh server configured without any default database. -/
def stNoDb : ServerState := ⟨none, none⟩

/-- A character sequence starting with SHOW cannot start with SELECT. -/
theorem startsList_show_not_select {l : List Char}
    (h : startsList l ['S','H','O','W'] = true) :
    startsList l ['S','E','L','E','C','T'] = false := by
  match l with
  | [] => simp [startsList] at h
  | [_] => simp [startsList] at h
  | a :: b :: rest =>
    simp only [startsList, Bool.and_eq_true, beq_iff_eq] at h
    obtain ⟨ha, hb, -⟩ := h
    subst ha; subst hb
    simp [startsList]

/-- A string starting with SHOW cannot start with SELECT. -/
theorem pyStartsWith_select_eq_false_of_show {s : String}
    (h : pyStartsWith s "SHOW" = true) : pyStartsWith s "SELECT" = false := by
  simp only [pyStartsWith] at h ⊢
  exact startsList_show_not_select h

/-- C1: for every query text that does not begin (case-insensitively, after
stripping surrounding whitespace) with the allowed keywords of the invoked
operation — SELECT for `query_data`; INSERT/UPDATE/DELETE/REPLACE for
`execute_write` — the operation returns a structured failure (success = false
with an error message, and affected_rows = 0 for `execute_write`), leaves the
global state unchanged, and performs no database access (empty event trace). -/
theorem C1_reject_no_db_access (o : Oracle) (st : ServerState)
    (q1 q2 : String) (limit : Int) (params : Option (List PyVal))
    (d1 d2 : Option String)
    (h1 : pyStartsWith (pyToUpper (pyStrip q1)) "SELECT" = false)
    (h2 : writeKeywords.any (fun p => pyStartsWith (pyToUpper (pyStrip q2)) p) = false) :
    ((query_data o st q1 limit d1).1.success = false
      ∧ (query_data o st q1 limit d1).1.error.isSome = true
      ∧ (query_data o st q1 limit d1).2 = (st, []))
    ∧ ((execute_write o st q2 params d2).1.success = false
      ∧ (execute_write o st q2 params d2).1.error.isSome = true
      ∧ (execute_write o st q2 params d2).1.affected_rows = 0
      ∧ (execute_write o st q2 params d2).2 = (st, [])) := by
  refine ⟨?_, ?_⟩
  · simp [query_data, h1]
  · simp [execute_write, h2]

/-- C1 witness: a DROP statement is rejected by `query_data` and a SELECT by
`execute_write`, each without any database access. -/
theorem C1_witness :
    ((query_data okOracle st0 "DROP TABLE users" 100 none).1.success = false
      ∧ (query_data okOracle st0 "DROP TABLE users" 100 none).1.error.isSome = true
      ∧ (query_data okOracle st0 "DROP TABLE users" 100 none).2 = (st0, []))
    ∧ ((execute_write okOracle st0 "SELECT 1" none none).1.success = false
      ∧ (execute_write okOracle st0 "SELECT 1" none none).1.error.isSome = true
      ∧ (execute_write okOracle st0 "SELECT 1" none none).1.affected_rows = 0
      ∧ (execute_write okOracle st0 "SELECT 1" none none).2 = (st0, [])) :=
  C1_reject_no_db_access okOracle st0 "DROP TABLE users" "SELECT 1" 100 none none none
    (by decide) (by decide)

/-- C2: for every `execute_write` call that passes the prefix check (stated
here on the global-context fast path, with a healthy acquire and begin), the
write runs inside an explicit transaction: when execute, commit and the
post-commit database-name probe succeed, the result reports success = true
with the affected-row count and last insert id and the trace shows begin →
execute → commit (commit before the call returns); when execution fails, or
commit fails, the transaction is rolled back and the result reports
success = false with affected_rows = 0 and a null last_insert_id. -/
theorem C2_write_transaction (o : Oracle) (st : ServerState)
    (q : String) (params : Option (List PyVal)) (c : MysqlContext)
    (hpre : writeKeywords.any (fun p => pyStartsWith (pyToUpper (pyStrip q)) p) = true)
    (hctx : st.globalCtx = some c)
    (hacq : o.acquire c.pool.pid = .ok ())
    (hbeg : o.beginTx c.pool.pid = .ok ()) :
    (∀ rc li dbrows,
       (∀ ps, o.runWrite c.pool.pid (pyStrip q) ps = .ok (rc, li)) →
       o.commitTx c.pool.pid = .ok () →
       o.runPlain c.pool.pid "SELECT DATABASE()" = .ok dbrows →
       (execute_write o st q params none).1.success = true
       ∧ (execute_write o st q params none).1.affected_rows = rc
       ∧ (execute_write o st q params none).1.last_insert_id
           = (if li == 0 then none else some li)
       ∧ (execute_write o st q params none).2
           = (st, [Event.txBegin c.pool.pid, Event.sql c.pool.pid (pyStrip q),
                   Event.txCommit c.pool.pid, Event.sql c.pool.pid "SELECT DATABASE()"]))
    ∧ (∀ e, (∀ ps, o.runWrite c.pool.pid (pyStrip q) ps = .error e) →
       (execute_write o st q params none).1.success = false
       ∧ (execute_write o st q params none).1.affected_rows = 0
       ∧ (execute_write o st q params none).1.last_insert_id = none
       ∧ (execute_write o st q params none).1.error.isSome = true
       ∧ (execute_write o st q params none).2
           = (st, [Event.txBegin c.pool.pid, Event.sql c.pool.pid (pyStrip q),
                   Event.txRollback c.pool.pid]))
    ∧ (∀ rc li e,
       (∀ ps, o.runWrite c.pool.pid (pyStrip q) ps = .ok (rc, li)) →
       o.commitTx c.pool.pid = .error e →
       (execute_write o st q params none).1.success = false
       ∧ (execute_write o st q params none).1.affected_rows = 0
       ∧ (execute_write o st q params none).1.last_insert_id = none
       ∧ (execute_write o st q params none).1.error.isSome = true
       ∧ (execute_write o st q params none).2
           = (st, [Event.txBegin c.pool.pid, Event.sql c.pool.pid (pyStrip q),
                   Event.txRollback c.pool.pid])) := by
  refine ⟨?_, ?_, ?_⟩
  · intro rc li dbrows hw hcom hrp
    simp [execute_write, execute_write_body, hpre, get_context, hctx, hacq, hbeg,
          hw, hcom, hrp, pyTruthy]
  · intro e hw
    rcases hrb : o.rollbackTx c.pool.pid with e2 | u <;>
      simp [execute_write, execute_write_body, hpre, get_context, hctx, hacq, hbeg,
            hw, rollbackStep, hrb, pyTruthy]
  · intro rc li e hw hcom
    rcases hrb : o.rollbackTx c.pool.pid with e2 | u <;>
      simp [execute_write, execute_write_body, hpre, get_context, hctx, hacq, hbeg,
            hw, hcom, rollbackStep, hrb, pyTruthy]

/-- C2 witness: a concrete INSERT on the global context commits and returns
success, with the commit in the trace before the call returns. -/
theorem C2_witness :
    (execute_write okOracle st0 "INSERT INTO t VALUES (1)" none none).1.success = true
    ∧ (execute_write okOracle st0 "INSERT INTO t VALUES (1)" none none).2
        = (st0, [Event.txBegin 0, Event.sql 0 (pyStrip "INSERT INTO t VALUES (1)"),
                 Event.txCommit 0, Event.sql 0 "SELECT DATABASE()"]) := by
  obtain ⟨ha, -, -⟩ := C2_write_transaction okOracle st0 "INSERT INTO t VALUES (1)" none
    ⟨⟨0, some "testdb", 10⟩⟩ (by decide) rfl rfl rfl
  exact ⟨(ha 2 0 [[some "testdb"]] (fun _ => rfl) rfl rfl).1,
         (ha 2 0 [[some "testdb"]] (fun _ => rfl) rfl rfl).2.2.2⟩

/-- Any successful result delivered by `get_context` comes from its body
evaluated at some context. -/
theorem get_context_ok {ε α : Type} (o : Oracle) (st : ServerState)
    (dn : Option String) (onErr : PyErr → ε)
    (body : MysqlContext → Except ε α × List Event) (a : α)
    (h : (get_context o st dn onErr body).1 = .ok a) :
    ∃ ctx, (body ctx).1 = .ok a := by
  simp only [get_context] at h
  repeat' split at h
  all_goals first
    | exact ⟨_, h⟩
    | simp at h

/-- Any successful write-body result has a last_insert_id that is not the
literal 0 (`last_insert_id if last_insert_id else None`). -/
theorem execute_write_body_no_zero_id (o : Oracle) (qs : String)
    (params : Option (List PyVal)) (database : Option String)
    (ctx : MysqlContext) (r : WriteResult)
    (h : (execute_write_body o qs params database ctx).1 = .ok r) :
    r.last_insert_id ≠ some 0 := by
  simp only [execute_write_body] at h
  repeat' split at h
  all_goals ((try cases h) <;> simp_all)

/-- C10: `execute_write` never reports the numeric value 0 as
last_insert_id: every result (reject, failure, or success) has
last_insert_id ≠ some 0, and on a pinned successful path where the driver
reports a last-row identifier of 0 the field is null. -/
theorem C10_last_insert_id_not_zero (o : Oracle) (st : ServerState)
    (q : String) (params : Option (List PyVal)) (database : Option String) :
    (execute_write o st q params database).1.last_insert_id ≠ some 0
    ∧ (∀ c rc dbrows, st.globalCtx = some c →
        o.acquire c.pool.pid = .ok () →
        o.beginTx c.pool.pid = .ok () →
        (∀ ps, o.runWrite c.pool.pid (pyStrip q) ps = .ok (rc, 0)) →
        o.commitTx c.pool.pid = .ok () →
        o.runPlain c.pool.pid "SELECT DATABASE()" = .ok dbrows →
        writeKeywords.any (fun p => pyStartsWith (pyToUpper (pyStrip q)) p) = true →
        (execute_write o st q params none).1.last_insert_id = none) := by
  constructor
  · simp only [execute_write]
    split
    · simp
    · rcases hstep : (get_context o st database id
          (execute_write_body o (pyStrip q) params database)).1 with e | res
      · simp [hstep]
      · obtain ⟨ctx, hb⟩ := get_context_ok _ _ _ _ _ _ hstep
        have hne := execute_write_body_no_zero_id _ _ _ _ _ _ hb
        simp [hstep, hne]
  · intro c rc dbrows hctx hacq hbeg hw hcom hrp hpre
    simp [execute_write, execute_write_body, hpre, get_context, hctx, hacq, hbeg,
          hw, hcom, hrp, pyTruthy]

/-- C10 witness: an INSERT whose driver reports lastrowid 0 yields a null
last_insert_id. -/
theorem C10_witness :
    (execute_write okOracle st0 "INSERT INTO t VALUES (1)" none none).1.last_insert_id = none :=
  (C10_last_insert_id_not_zero okOracle st0 "INSERT INTO t VALUES (1)" none none).2
    ⟨⟨0, some "testdb", 10⟩⟩ 2 [[some "testdb"]] rfl rfl rfl (fun _ => rfl) rfl rfl (by decide)

/-- C4: context resolution.  (i) a truthy requested database different from
the global default yields a fresh ephemeral pool bound to that database with
maxsize 5 — strictly smaller than the default pool's maxsize 10 of case (iv)
— which is closed before the call returns on every exit path of the body,
with the global state left unchanged; (ii) a requested name equal to the
current global default returns the existing global context unchanged with no
pool event; (iii) no request with an existing global context likewise;
(iv) lazy creation of the global pool (maxsize 10, bound to the default
database name) when no context exists. -/
theorem C4_context_resolution {ε α : Type} (o : Oracle) (st : ServerState)
    (onErr : PyErr → ε) (body : MysqlContext → Except ε α × List Event)
    (s t : String) (pid pid2 : Nat) (c : MysqlContext) :
    (s ≠ "" → pyNeqOpt s st.dbName = true → o.createPool (some s) 5 = .ok pid →
      get_context o st (some s) onErr body =
        ((body ⟨⟨pid, some s, 5⟩⟩).1, st,
         Event.poolCreated (some s) 5 pid :: (body ⟨⟨pid, some s, 5⟩⟩).2
           ++ [Event.poolClosed pid]))
    ∧ (st.dbName = some t → st.globalCtx = some c →
      get_context o st (some t) onErr body = ((body c).1, st, (body c).2))
    ∧ (st.globalCtx = some c →
      get_context o st none onErr body = ((body c).1, st, (body c).2))
    ∧ (st.globalCtx = none → o.createPool st.dbName 10 = .ok pid2 →
      get_context o st none onErr body =
        ((body ⟨⟨pid2, st.dbName, 10⟩⟩).1,
         { st with globalCtx := some ⟨⟨pid2, st.dbName, 10⟩⟩ },
         Event.poolCreated st.dbName 10 pid2 :: (body ⟨⟨pid2, st.dbName, 10⟩⟩).2)) := by
  refine ⟨?_, ?_, ?_, ?_⟩
  · intro hs hne hcp
    simp [get_context, hne, hcp, hs]
  · intro hdb hg
    simp [get_context, hdb, pyNeqOpt, hg]
  · intro hg
    simp [get_context, hg]
  · intro hg hcp
    simp [get_context, hg, hcp]

/-- C4 witness: requesting `otherdb` against a `testdb` default creates and
closes an ephemeral maxsize-5 pool around the body; requesting `testdb`
reuses the existing global context with no pool event. -/
theorem C4_witness :
    get_context okOracle st0 (some "otherdb") (id : PyErr → PyErr)
        (fun ctx => (Except.ok ctx.pool.pid, [Event.sql ctx.pool.pid "SELECT 1"])) =
      (Except.ok 7, st0,
       [Event.poolCreated (some "otherdb") 5 7, Event.sql 7 "SELECT 1", Event.poolClosed 7])
    ∧ get_context okOracle st0 (some "testdb") (id : PyErr → PyErr)
        (fun ctx => (Except.ok ctx.pool.pid, [Event.sql ctx.pool.pid "SELECT 1"])) =
      (Except.ok 0, st0, [Event.sql 0 "SELECT 1"]) := by
  obtain ⟨h1, h2, -, -⟩ := C4_context_resolution okOracle st0 (id : PyErr → PyErr)
    (fun ctx => (Except.ok ctx.pool.pid, [Event.sql ctx.pool.pid "SELECT 1"]))
    "otherdb" "testdb" 7 7 ⟨⟨0, some "testdb", 10⟩⟩
  refine ⟨?_, ?_⟩
  · simpa using h1 (by decide) (by decide) rfl
  · simpa using h2 rfl rfl

/-- C6 counterexample: a SHOW-prefixed `query_data` call with limit 5 is not
executed at all — even against a driver for which every operation succeeds it
returns success = false with an empty event trace, so the claimed
"executed without LIMIT, truncated after execution, success = true" is false. -/
theorem C6_counterexample :
    (query_data okOracle st0 "SHOW TABLES" 5 none).1.success = false
    ∧ (query_data okOracle st0 "SHOW TABLES" 5 none).2.2 = [] := by decide

/-- C6 (amended): every SHOW-prefixed query text is rejected by the
SELECT-only safety check before any database work: `query_data` returns
success = false with the rejection error and the original text, performs no
database access, and leaves the state unchanged — the post-execution
truncation branch is unreachable. -/
theorem C6_show_rejected (o : Oracle) (st : ServerState) (q : String)
    (limit : Int) (database : Option String)
    (hshow : pyStartsWith (pyToUpper (pyStrip q)) "SHOW" = true) :
    (query_data o st q limit database).1.success = false
    ∧ (query_data o st q limit database).1.error
        = some "Only SELECT queries are allowed for safety"
    ∧ (query_data o st q limit database).1.query = q
    ∧ (query_data o st q limit database).2 = (st, []) := by
  have hsel := pyStartsWith_select_eq_false_of_show hshow
  simp [query_data, hsel]

/-- C6 witness: `SHOW DATABASES` with limit 3 is rejected without execution. -/
theorem C6_witness :
    (query_data okOracle st0 "SHOW DATABASES" 3 none).1.success = false
    ∧ (query_data okOracle st0 "SHOW DATABASES" 3 none).1.error
        = some "Only SELECT queries are allowed for safety"
    ∧ (query_data okOracle st0 "SHOW DATABASES" 3 none).1.query = "SHOW DATABASES"
    ∧ (query_data okOracle st0 "SHOW DATABASES" 3 none).2 = (st0, []) :=
  C6_show_rejected okOracle st0 "SHOW DATABASES" 3 none (by decide)

/-- C5 counterexample: the claim says queries beginning with DESCRIBE (or
SHOW/EXPLAIN) "are executed unmodified"; in fact `DESCRIBE t` is rejected by
the SELECT-only check and nothing is executed, even against an all-success
driver. -/
theorem C5_counterexample :
    (query_data okOracle st0 "DESCRIBE t" 2 none).1.success = false
    ∧ (query_data okOracle st0 "DESCRIBE t" 2 none).2.2 = [] := by decide

/-- C5 (amended): for `query_data` calls that pass the SELECT check, with
limit > 0, no LIMIT substring and not beginning with SHOW/DESCRIBE/EXPLAIN,
the executed statement is the caller's text with trailing semicolons
stripped and ` LIMIT <n>` appended; SELECT queries already containing LIMIT
are executed unmodified; and when the driver honours a trailing LIMIT n by
returning at most n rows, a successful call reports at most n rows.
(Queries beginning with SHOW/DESCRIBE/EXPLAIN never reach execution: they
are rejected by the SELECT-only check.) -/
theorem C5_limit_injection (o : Oracle) (st : ServerState) (q : String)
    (limit : Int) (c : MysqlContext)
    (hctx : st.globalCtx = some c)
    (hacq : o.acquire c.pool.pid = .ok ())
    (hsel : pyStartsWith (pyToUpper (pyStrip q)) "SELECT" = true) :
    (limit > 0 →
      pyContainsSub (pyStrip (pyToUpper q)) "LIMIT" = false →
      pyStartsWith (pyStrip (pyToUpper q)) "SHOW" = false →
      pyStartsWith (pyStrip (pyToUpper q)) "DESCRIBE" = false →
      pyStartsWith (pyStrip (pyToUpper q)) "EXPLAIN" = false →
      ((query_data o st q limit none).2.2).head?
        = some (Event.sql c.pool.pid (pyRstripSemi q ++ " LIMIT " ++ toString limit)))
    ∧ (pyContainsSub (pyStrip (pyToUpper q)) "LIMIT" = true →
      ((query_data o st q limit none).2.2).head? = some (Event.sql c.pool.pid q))
    ∧ ((∀ t rows d, o.runDict c.pool.pid (t ++ " LIMIT " ++ toString limit) = .ok (rows, d) →
          rows.length ≤ limit.toNat) →
      limit > 0 →
      pyContainsSub (pyStrip (pyToUpper q)) "LIMIT" = false →
      pyStartsWith (pyStrip (pyToUpper q)) "SHOW" = false →
      pyStartsWith (pyStrip (pyToUpper q)) "DESCRIBE" = false →
      pyStartsWith (pyStrip (pyToUpper q)) "EXPLAIN" = false →
      (query_data o st q limit none).1.success = true →
      (query_data o st q limit none).1.row_count ≤ limit.toNat) := by
  refine ⟨?_, ?_, ?_⟩
  · intro hl hnl hns hnd hne2
    have hq1 : rewriteLimit q limit = pyRstripSemi q ++ " LIMIT " ++ toString limit := by
      simp [rewriteLimit, hl, hnl, hns, hnd, hne2]
    rcases hrd : o.runDict c.pool.pid (pyRstripSemi q ++ " LIMIT " ++ toString limit) with e | rd
    · simp [query_data, query_data_body, hsel, get_context, hctx, hacq, pyTruthy, hq1, hrd]
    · rcases hrp : o.runPlain c.pool.pid "SELECT DATABASE()" with e2 | dbr <;>
        simp [query_data, query_data_body, hsel, get_context, hctx, hacq, pyTruthy, hq1, hrd, hrp]
  · intro hlim
    have hq1 : rewriteLimit q limit = q := by
      simp [rewriteLimit, hlim]
    rcases hrd : o.runDict c.pool.pid q with e | rd
    · simp [query_data, query_data_body, hsel, get_context, hctx, hacq, pyTruthy, hq1, hrd]
    · rcases hrp : o.runPlain c.pool.pid "SELECT DATABASE()" with e2 | dbr <;>
        simp [query_data, query_data_body, hsel, get_context, hctx, hacq, pyTruthy, hq1, hrd, hrp]
  · intro hor hl hnl hns hnd hne2 hsucc
    have hq1 : rewriteLimit q limit = pyRstripSemi q ++ " LIMIT " ++ toString limit := by
      simp [rewriteLimit, hl, hnl, hns, hnd, hne2]
    rcases hrd : o.runDict c.pool.pid (pyRstripSemi q ++ " LIMIT " ++ toString limit) with e | rd
    · simp [query_data, query_data_body, hsel, get_context, hctx, hacq, pyTruthy, hq1, hrd] at hsucc
    · rcases hrp : o.runPlain c.pool.pid "SELECT DATABASE()" with e2 | dbr
      · simp [query_data, query_data_body, hsel, get_context, hctx, hacq, pyTruthy,
              hq1, hrd, hrp] at hsucc
      · have hcount : (query_data o st q limit none).1.row_count = rd.1.length := by
          simp [query_data, query_data_body, hsel, get_context, hctx, hacq, pyTruthy,
                hq1, hrd, hrp, hns]
        rw [hcount]
        exact hor (pyRstripSemi q) rd.1 rd.2 (by simpa using hrd)

/-- C5 witness: `SELECT * FROM t;` with limit 3 is executed as
`SELECT * FROM t LIMIT 3` and reports at most 3 rows. -/
theorem C5_witness :
    ((query_data { okOracle with runDict := fun _ _ => .ok ([], some []) } st0
        "SELECT * FROM t;" 3 none).2.2).head?
      = some (Event.sql 0 "SELECT * FROM t LIMIT 3")
    ∧ (query_data { okOracle with runDict := fun _ _ => .ok ([], some []) } st0
        "SELECT * FROM t;" 3 none).1.row_count ≤ (3 : Int).toNat := by
  obtain ⟨h1, -, h3⟩ := C5_limit_injection
    { okOracle with runDict := fun _ _ => .ok ([], some []) } st0
    "SELECT * FROM t;" 3 ⟨⟨0, some "testdb", 10⟩⟩ rfl rfl (by decide)
  refine ⟨?_, ?_⟩
  · have := h1 (by decide) (by decide) (by decide) (by decide) (by decide)
    simpa using this
  · exact h3 (fun t rows d h => by simp at h; simp [h.1]) (by decide)
      (by decide) (by decide) (by decide) (by decide) (by decide)

/-- C7 counterexample: a `query_data` call that fails during execution after
limit rewriting returns the rewritten text in the payload's query field, not
the caller's original text (`SELECT * FROM t;` with limit 3 comes back as
`SELECT * FROM t LIMIT 3`). -/
theorem C7_counterexample :
    (query_data execFailOracle st0 "SELECT * FROM t;" 3 none).1.success = false
    ∧ (query_data execFailOracle st0 "SELECT * FROM t;" 3 none).1.query
        = "SELECT * FROM t LIMIT 3"
    ∧ "SELECT * FROM t LIMIT 3" ≠ "SELECT * FROM t;" := by decide

/-- C7 (amended): the comparison text is uppercased only for the checks and
the executed text is mutated only by the limit injection; a failure payload's
query field holds the caller's text verbatim when the failure happens before
the rewrite (prefix rejection), and the rewritten text (trailing semicolons
stripped, ` LIMIT <n>` appended) when execution of a rewritten query fails;
execution failures of queries already containing LIMIT return the original
text. -/
theorem C7_failure_query_field (o : Oracle) (st : ServerState) (q : String)
    (limit : Int) (database : Option String) (c : MysqlContext) (e : PyErr)
    (hctx : st.globalCtx = some c)
    (hacq : o.acquire c.pool.pid = .ok ()) :
    (pyStartsWith (pyToUpper (pyStrip q)) "SELECT" = false →
      (query_data o st q limit database).1.success = false
      ∧ (query_data o st q limit database).1.query = q)
    ∧ (pyStartsWith (pyToUpper (pyStrip q)) "SELECT" = true →
      limit > 0 →
      pyContainsSub (pyStrip (pyToUpper q)) "LIMIT" = false →
      pyStartsWith (pyStrip (pyToUpper q)) "SHOW" = false →
      pyStartsWith (pyStrip (pyToUpper q)) "DESCRIBE" = false →
      pyStartsWith (pyStrip (pyToUpper q)) "EXPLAIN" = false →
      o.runDict c.pool.pid (pyRstripSemi q ++ " LIMIT " ++ toString limit) = .error e →
      (query_data o st q limit none).1.success = false
      ∧ (query_data o st q limit none).1.query
          = pyRstripSemi q ++ " LIMIT " ++ toString limit)
    ∧ (pyStartsWith (pyToUpper (pyStrip q)) "SELECT" = true →
      pyContainsSub (pyStrip (pyToUpper q)) "LIMIT" = true →
      o.runDict c.pool.pid q = .error e →
      (query_data o st q limit none).1.success = false
      ∧ (query_data o st q limit none).1.query = q) := by
  refine ⟨?_, ?_, ?_⟩
  · intro hsel
    simp [query_data, hsel]
  · intro hsel hl hnl hns hnd hne2 hrd
    have hq1 : rewriteLimit q limit = pyRstripSemi q ++ " LIMIT " ++ toString limit := by
      simp [rewriteLimit, hl, hnl, hns, hnd, hne2]
    simp [query_data, query_data_body, hsel, get_context, hctx, hacq, pyTruthy, hq1, hrd]
  · intro hsel hlim hrd
    have hq1 : rewriteLimit q limit = q := by
      simp [rewriteLimit, hlim]
    simp [query_data, query_data_body, hsel, get_context, hctx, hacq, pyTruthy, hq1, hrd]

/-- C7 witness: a failing rewritten query reports the rewritten text; a
failing query that already contains LIMIT reports the original text. -/
theorem C7_witness :
    ((query_data execFailOracle st0 "SELECT id FROM t" 2 none).1.success = false
      ∧ (query_data execFailOracle st0 "SELECT id FROM t" 2 none).1.query
          = pyRstripSemi "SELECT id FROM t" ++ " LIMIT " ++ toString (2 : Int))
    ∧ ((query_data execFailOracle st0 "SELECT id FROM t LIMIT 9" 2 none).1.success = false
      ∧ (query_data execFailOracle st0 "SELECT id FROM t LIMIT 9" 2 none).1.query
          = "SELECT id FROM t LIMIT 9") := by
  refine ⟨?_, ?_⟩
  · obtain ⟨-, h2, -⟩ := C7_failure_query_field execFailOracle st0 "SELECT id FROM t" 2 none
      ⟨⟨0, some "testdb", 10⟩⟩ ⟨"ProgrammingError", "no such table"⟩ rfl rfl
    exact h2 (by decide) (by decide) (by decide) (by decide) (by decide) (by decide) rfl
  · obtain ⟨-, -, h3⟩ := C7_failure_query_field execFailOracle st0 "SELECT id FROM t LIMIT 9" 2 none
      ⟨⟨0, some "testdb", 10⟩⟩ ⟨"ProgrammingError", "no such table"⟩ rfl rfl
    exact h3 (by decide) (by decide) rfl

/-- C8: `list_tables` and `get_schema` with no truthy explicit database and
no truthy configured default return a MissingDatabase-style failure (status
error, empty table/column list, count 0, null database) without any database
access and with the state unchanged; with a truthy explicit database the
catalog lookup (`SHOW TABLES` / the information_schema columns query) is
reached. -/
theorem C8_missing_database (o : Oracle) (st : ServerState)
    (database : Option String) (table s : String) (pid : Nat)
    (u : List (List PyVal)) :
    (pyTruthy database = false → pyTruthy st.dbName = false →
      (list_tables o st database).1.status = "error"
      ∧ (list_tables o st database).1.tables = []
      ∧ (list_tables o st database).1.count = 0
      ∧ (list_tables o st database).1.database = none
      ∧ (list_tables o st database).2 = (st, []))
    ∧ (pyTruthy database = false → pyTruthy st.dbName = false →
      (get_schema o st table database).1.status = "error"
      ∧ (get_schema o st table database).1.columns = []
      ∧ (get_schema o st table database).1.count = 0
      ∧ (get_schema o st table database).1.table = table
      ∧ (get_schema o st table database).1.database = none
      ∧ (get_schema o st table database).2 = (st, []))
    ∧ (s ≠ "" → pyNeqOpt s st.dbName = true →
      o.createPool (some s) 5 = .ok pid →
      o.acquire pid = .ok () →
      o.runPlain pid ("USE `" ++ s ++ "`") = .ok u →
      Event.sql pid "SHOW TABLES" ∈ (list_tables o st (some s)).2.2)
    ∧ (s ≠ "" → pyNeqOpt s st.dbName = true →
      o.createPool (some s) 5 = .ok pid →
      o.acquire pid = .ok () →
      Event.sql pid schemaColumnsQuery ∈ (get_schema o st table (some s)).2.2) := by
  refine ⟨?_, ?_, ?_, ?_⟩
  · intro h1 h2
    simp [list_tables, h1, h2]
  · intro h1 h2
    simp [get_schema, h1, h2]
  · intro hs hne hcp hacq hu
    rcases hst : o.runPlain pid "SHOW TABLES" with e | rows
    · simp [list_tables, list_tables_body, useDbStep, get_context, pyTruthy, pyOr,
            hs, hne, hcp, hacq, hu, hst]
    · simp [list_tables, list_tables_body, useDbStep, get_context, pyTruthy, pyOr,
            hs, hne, hcp, hacq, hu, hst]
      repeat' split <;> simp
  · intro hs hne hcp hacq
    rcases hq : o.runDictP pid schemaColumnsQuery [some s, some table] with e | rd
    · simp [get_schema, get_schema_body, get_context, pyTruthy, pyOr,
            hs, hne, hcp, hacq, hq]
    · simp only [get_schema, get_schema_body, get_context, pyTruthy, pyOr,
                 hs, hne, hcp, hacq, hq]
      repeat' split <;> simp_all

/-- C8 witness: with no default database and no argument both calls fail
without database access; with an explicit database the catalog query runs. -/
theorem C8_witness :
    ((list_tables okOracle stNoDb none).1.status = "error"
      ∧ (list_tables okOracle stNoDb none).1.tables = []
      ∧ (list_tables okOracle stNoDb none).1.count = 0
      ∧ (list_tables okOracle stNoDb none).1.database = none
      ∧ (list_tables okOracle stNoDb none).2 = (stNoDb, []))
    ∧ ((get_schema okOracle stNoDb "t" none).1.status = "error"
      ∧ (get_schema okOracle stNoDb "t" none).1.columns = []
      ∧ (get_schema okOracle stNoDb "t" none).1.count = 0
      ∧ (get_schema okOracle stNoDb "t" none).1.table = "t"
      ∧ (get_schema okOracle stNoDb "t" none).1.database = none
      ∧ (get_schema okOracle stNoDb "t" none).2 = (stNoDb, []))
    ∧ Event.sql 7 "SHOW TABLES" ∈ (list_tables okOracle stNoDb (some "x")).2.2
    ∧ Event.sql 7 schemaColumnsQuery ∈ (get_schema okOracle stNoDb "t" (some "x")).2.2 := by
  obtain ⟨h1, h2, h3, h4⟩ := C8_missing_database okOracle stNoDb none "t" "x" 7 [[some "testdb"]]
  exact ⟨h1 rfl rfl, h2 rfl rfl, h3 (by decide) rfl rfl rfl rfl, h4 (by decide) rfl rfl rfl⟩

/-- C9 counterexample: when the verification query of `change_database`
raises after the new pool was installed, the call reports an error with a
null current_database, but the global context is NOT unset — it holds the
new, never-verified pool — contradicting the claim that the global context
is unset on every post-teardown failure. -/
theorem C9_counterexample :
    (change_database verifyFailOracle st0 "newdb").1.status = "error"
    ∧ (change_database verifyFailOracle st0 "newdb").1.current_database = none
    ∧ (change_database verifyFailOracle st0 "newdb").2.1.dbName = some "newdb"
    ∧ (change_database verifyFailOracle st0 "newdb").2.1.globalCtx ≠ none := by decide

/-- C9 (amended): a failing `change_database` returns status error with a
null current_database and always leaves `db_name` set to the requested name;
when pool creation raises the global context is unset — so every subsequent
default-context operation lazily creates a pool bound to the requested,
never-verified name (third conjunct) — whereas when the verification query
raises after installation, the global context remains set to the new
unverified pool. -/
theorem C9_change_database_failure_state (o : Oracle) (st : ServerState)
    (name : String) (pid : Nat) (e : PyErr)
    (body : MysqlContext → Except PyErr Unit × List Event) :
    (o.createPool (some name) 10 = .error e →
      (change_database o st name).1.status = "error"
      ∧ (change_database o st name).1.current_database = none
      ∧ (change_database o st name).2.1 = ⟨some name, none⟩)
    ∧ (o.createPool (some name) 10 = .ok pid →
      o.acquire pid = .ok () →
      o.runPlain pid "SELECT DATABASE()" = .error e →
      (change_database o st name).1.status = "error"
      ∧ (change_database o st name).1.current_database = none
      ∧ (change_database o st name).2.1 = ⟨some name, some ⟨⟨pid, some name, 10⟩⟩⟩)
    ∧ (o.createPool (some name) 10 = .ok pid →
      get_context o ⟨some name, none⟩ none (id : PyErr → PyErr) body =
        ((body ⟨⟨pid, some name, 10⟩⟩).1,
         (⟨some name, some ⟨⟨pid, some name, 10⟩⟩⟩ : ServerState),
         Event.poolCreated (some name) 10 pid :: (body ⟨⟨pid, some name, 10⟩⟩).2)) := by
  refine ⟨?_, ?_, ?_⟩
  · intro hcp
    rcases hg : st.globalCtx with _ | c <;> simp [change_database, hcp, hg]
  · intro hcp hacq hrp
    rcases hg : st.globalCtx with _ | c <;> simp [change_database, hcp, hg, hacq, hrp]
  · intro hcp
    simp [get_context, hcp]

/-- C9 witness: creation failure leaves `(db_name = newdb, no context)`;
verification failure leaves the new pool installed. -/
theorem C9_witness :
    ((change_database createFailOracle st0 "newdb").1.status = "error"
      ∧ (change_database createFailOracle st0 "newdb").1.current_database = none
      ∧ (change_database createFailOracle st0 "newdb").2.1
          = (⟨some "newdb", none⟩ : ServerState))
    ∧ ((change_database verifyFailOracle st0 "newdb").1.status = "error"
      ∧ (change_database verifyFailOracle st0 "newdb").1.current_database = none
      ∧ (change_database verifyFailOracle st0 "newdb").2.1
          = (⟨some "newdb", some ⟨⟨7, some "newdb", 10⟩⟩⟩ : ServerState)) := by
  obtain ⟨h1, -, -⟩ := C9_change_database_failure_state createFailOracle st0 "newdb" 7
    ⟨"OperationalError", "refused"⟩ (get_status_body createFailOracle)
  obtain ⟨-, h2, -⟩ := C9_change_database_failure_state verifyFailOracle st0 "newdb" 7
    ⟨"OperationalError", "boom"⟩ (get_status_body verifyFailOracle)
  exact ⟨h1 rfl, h2 rfl rfl rfl⟩

/-- C3 counterexample: a successful `query_data` payload carries no
message/error key at all (its Python dict has only success, rows, row_count,
columns, database, query), refuting the claim that every result is a mapping
with both a status/success field and a message/error field. -/
theorem C3_counterexample :
    (query_data okOracle st0 "SELECT 1" 5 none).1.success = true
    ∧ (query_data okOracle st0 "SELECT 1" 5 none).1.error = none := by decide

/-- Any successful `query_data` body result is a success payload with no
error key. -/
theorem query_data_body_ok (o : Oracle) (q : String) (limit : Int)
    (d : Option String) (ctx : MysqlContext) (r : QueryResult)
    (h : (query_data_body o q limit d ctx).1 = .ok r) :
    r.success = true ∧ r.error = none := by
  simp only [query_data_body] at h
  repeat' split at h
  all_goals ((try cases h) <;> simp_all)

/-- Any successful `execute_write` body result is a success payload with a
message. -/
theorem execute_write_body_ok (o : Oracle) (qs : String)
    (params : Option (List PyVal)) (d : Option String)
    (ctx : MysqlContext) (r : WriteResult)
    (h : (execute_write_body o qs params d ctx).1 = .ok r) :
    r.success = true ∧ r.message.isSome = true := by
  simp only [execute_write_body] at h
  repeat' split at h
  all_goals ((try cases h) <;> simp_all)

/-- Any successful `list_databases` body result has status success. -/
theorem list_databases_body_ok (o : Oracle) (ctx : MysqlContext) (r : DbListResult)
    (h : (list_databases_body o ctx).1 = .ok r) : r.status = "success" := by
  simp only [list_databases_body] at h
  repeat' split at h
  all_goals ((try cases h) <;> simp_all)

/-- Any successful `list_tables` body result has status success. -/
theorem list_tables_body_ok (o : Oracle) (st : ServerState) (d : Option String)
    (tgt : String) (ctx : MysqlContext) (r : TablesResult)
    (h : (list_tables_body o st d tgt ctx).1 = .ok r) : r.status = "success" := by
  simp only [list_tables_body] at h
  repeat' split at h
  all_goals ((try cases h) <;> simp_all)

/-- Any `get_schema` body result returned without raising has status success
or the TableNotFound-style status error. -/
theorem get_schema_body_ok (o : Oracle) (table tgt : String)
    (ctx : MysqlContext) (r : SchemaResult)
    (h : (get_schema_body o table tgt ctx).1 = .ok r) :
    r.status = "success" ∨ r.status = "error" := by
  simp only [get_schema_body] at h
  repeat' split at h
  all_goals ((try cases h) <;> simp_all)

/-- C3 (amended): every handler and resource, for every input and every
driver behaviour (including raised errors at any step), returns a structured
value and never propagates an exception: tool results report success (or
status success) or else failure with an error/status-error message, and the
two resources always render one of their fixed textual forms.  Exception to
the claimed shape: a successful `query_data` payload has no message/error
field (see the counterexample). -/
theorem C3_structured_results (o : Oracle) (st : ServerState)
    (q : String) (limit : Int) (d1 : Option String)
    (qw : String) (params : Option (List PyVal)) (d2 : Option String)
    (name table : String) (d3 d4 : Option String) :
    ((query_data o st q limit d1).1.success = true
      ∨ ((query_data o st q limit d1).1.success = false
         ∧ (query_data o st q limit d1).1.error.isSome = true))
    ∧ ((execute_write o st qw params d2).1.success = true
      ∨ ((execute_write o st qw params d2).1.success = false
         ∧ (execute_write o st qw params d2).1.error.isSome = true))
    ∧ ((change_database o st name).1.status = "success"
      ∨ (change_database o st name).1.status = "error")
    ∧ ((list_databases o st).1.status = "success"
      ∨ (list_databases o st).1.status = "error")
    ∧ ((list_tables o st d3).1.status = "success"
      ∨ (list_tables o st d3).1.status = "error")
    ∧ ((get_schema o st table d4).1.status = "success"
      ∨ (get_schema o st table d4).1.status = "error")
    ∧ ((get_status o st).1 = "✅ MySQL server is healthy and ready"
      ∨ ∃ m, (get_status o st).1 = "❌ MySQL server error: " ++ m)
    ∧ ((∃ m, (get_tables_resource o st).1 = "❌ Error: " ++ m)
      ∨ (get_tables_resource o st).1 = "📋 No tables found in database"
      ∨ ∃ ts, (get_tables_resource o st).1
          = String.intercalate "\n" (List.map (fun t => "📊 " ++ pyStr t) ts)) := by
  refine ⟨?_, ?_, ?_, ?_, ?_, ?_, ?_, ?_⟩
  · simp only [query_data]
    split
    · right; simp
    · rcases hstep : (get_context o st d1 (fun e => (e, q)) (query_data_body o q limit d1)).1
        with ep | res
      · right; simp [hstep]
      · obtain ⟨ctx, hb⟩ := get_context_ok _ _ _ _ _ _ hstep
        have hok := query_data_body_ok _ _ _ _ _ _ hb
        left; simp [hstep, hok.1]
  · simp only [execute_write]
    split
    · right; simp
    · rcases hstep : (get_context o st d2 id (execute_write_body o (pyStrip qw) params d2)).1
        with ep | res
      · right; simp [hstep]
      · obtain ⟨ctx, hb⟩ := get_context_ok _ _ _ _ _ _ hstep
        have hok := execute_write_body_ok _ _ _ _ _ _ hb
        left; simp [hstep, hok.1]
  · simp only [change_database]
    repeat' split <;> (try simp)
  · rcases hstep : (get_context o st none id (list_databases_body o)).1 with e | r
    · right
      simp only [list_databases]
      rw [hstep]
    · obtain ⟨ctx, hb⟩ := get_context_ok _ _ _ _ _ _ hstep
      have hok := list_databases_body_ok _ _ _ hb
      left
      simp only [list_databases]
      rw [hstep]
      exact hok
  · rcases htgt : (if pyTruthy d3 = true then some (pyOr d3 "")
        else if pyTruthy st.dbName = true then some (pyOr st.dbName "") else none)
      with _ | tgt
    · right; simp [list_tables, htgt]
    · rcases hstep : (get_context o st d3 id (list_tables_body o st d3 tgt)).1 with e | r
      · right; simp [list_tables, htgt, hstep]
      · obtain ⟨ctx, hb⟩ := get_context_ok _ _ _ _ _ _ hstep
        have hok := list_tables_body_ok _ _ _ _ _ _ hb
        left; simp [list_tables, htgt, hstep, hok]
  · rcases htgt : (if pyTruthy d4 = true then some (pyOr d4 "")
        else if pyTruthy st.dbName = true then some (pyOr st.dbName "") else none)
      with _ | tgt
    · right; simp [get_schema, htgt]
    · rcases hstep : (get_context o st d4 id (get_schema_body o table tgt)).1 with e | r
      · right; simp [get_schema, htgt, hstep]
      · obtain ⟨ctx, hb⟩ := get_context_ok _ _ _ _ _ _ hstep
        rcases get_schema_body_ok _ _ _ _ _ hb with hok | hok
        · left; simp [get_schema, htgt, hstep, hok]
        · right; simp [get_schema, htgt, hstep, hok]
  · rcases hstep : (get_context o st none id (get_status_body o)).1 with e | u
    · right; exact ⟨e.emsg, by simp [get_status, hstep]⟩
    · left; simp [get_status, hstep]
  · by_cases hs : (list_tables o st none).1.status = "success"
    · rcases hts : (list_tables o st none).1.tables with _ | ⟨t, ts⟩
      · right; left; simp [get_tables_resource, hs, hts]
      · right; right
        exact ⟨t :: ts, by simp [get_tables_resource, hs, hts]⟩
    · left
      exact ⟨(list_tables o st none).1.message, by simp [get_tables_resource, hs]⟩
